import Mathlib

/-!
# Record example (`examples/recording/main.c`)

A shallow embedding of the two functions of `main.c`:

* `SaveToWav`, which writes the record buffer of a sound to `record.wav`;
* `main`, the device selection dialogue followed by the interactive loop that
  maps keys to record / play / loop / stop / save.

The FMOD library, the C runtime and the console are outside the program.  Every
value they hand back (result codes, out-parameters, keys, the bytes a write
accepts) is an input of the model, and every call the program makes is logged
in order, so that the theorems speak about what the program does with those
values.

Platform conventions used by the embedding (the source is a Windows program,
it includes `windows.h` and `conio.h`): `int` and `unsigned int` are 32 bits,
`unsigned short` is 16 bits, integers are stored little-endian and the header
structures are laid out without padding (`#pragma pack(1)`).
-/

namespace Recording

/-! ## Machine integers and byte images -/

/-- Value of an `int` expression: the mathematical result wrapped to 32-bit
two's complement. -/
def wrapInt (x : Int) : Int := (x + 2147483648) % 4294967296 - 2147483648

/-- Conversion of an `int` to `unsigned short`. -/
def toUShort (x : Int) : Nat := (x % 65536).toNat

/-- Conversion of an `int` to `unsigned int`. -/
def toUInt (x : Int) : Nat := (x % 4294967296).toNat

/-- Multiplication of two `int` operands. -/
def imul (a b : Int) : Int := wrapInt (a * b)

/-- Division of two `int` operands: C division truncates toward zero. -/
def idiv (a b : Int) : Int := Int.tdiv a b

/-- Memory image of an `unsigned short`. -/
def le16 (n : Nat) : List Nat := [n % 256, n / 256 % 256]

/-- Memory image of an `unsigned int` (or of an `int` given by its
unsigned conversion). -/
def le32 (n : Nat) : List Nat :=
  [n % 256, n / 256 % 256, n / 65536 % 256, n / 16777216 % 256]

/-- Memory image of a four character tag such as `{'R','I','F','F'}`. -/
def tag4 (a b c d : Char) : List Nat := [a.toNat, b.toNat, c.toNat, d.toNat]

/-! ## The WAV structures of `SaveToWav` -/

/-- The struct `RiffChunk`: `signed char id[4]; int size;`. -/
structure RiffChunk where
  id : List Nat
  size : Int
  deriving DecidableEq, Repr

/-- Value of `sizeof(RiffChunk)`. -/
def sizeofRiffChunk : Nat := 4 + 4

/-- Memory image of a `RiffChunk`. -/
def RiffChunk.bytes (c : RiffChunk) : List Nat := c.id ++ le32 (toUInt c.size)

/-- The anonymous struct of the variable `FmtChunk`. -/
structure FmtChunkT where
  chunk : RiffChunk
  wFormatTag : Nat
  nChannels : Nat
  nSamplesPerSec : Nat
  nAvgBytesPerSec : Nat
  nBlockAlign : Nat
  wBitsPerSample : Nat
  deriving DecidableEq, Repr

/-- Value of `sizeof(FmtChunk)`. -/
def sizeofFmtChunk : Nat := sizeofRiffChunk + 2 + 2 + 4 + 4 + 2 + 2

/-- Memory image of the variable `FmtChunk`. -/
def FmtChunkT.bytes (c : FmtChunkT) : List Nat :=
  c.chunk.bytes ++ le16 c.wFormatTag ++ le16 c.nChannels ++ le32 c.nSamplesPerSec
    ++ le32 c.nAvgBytesPerSec ++ le16 c.nBlockAlign ++ le16 c.wBitsPerSample

/-- The anonymous struct of the variable `DataChunk`. -/
structure DataChunkT where
  chunk : RiffChunk
  deriving DecidableEq, Repr

/-- Value of `sizeof(DataChunk)`. -/
def sizeofDataChunk : Nat := sizeofRiffChunk

/-- Memory image of the variable `DataChunk`. -/
def DataChunkT.bytes (c : DataChunkT) : List Nat := c.chunk.bytes

/-- The anonymous struct of the variable `WavHeader`. -/
structure WavHeaderT where
  chunk : RiffChunk
  rifftype : List Nat
  deriving DecidableEq, Repr

/-- Value of `sizeof(WavHeader)`. -/
def sizeofWavHeader : Nat := sizeofRiffChunk + 4

/-- Memory image of the variable `WavHeader`. -/
def WavHeaderT.bytes (c : WavHeaderT) : List Nat := c.chunk.bytes ++ c.rifftype

/-! ## The sound object as `SaveToWav` sees it -/

/-- Out-parameters of `FMOD_Sound_Lock`: `ptr1` and `ptr2` are given by the
bytes readable from them. -/
structure LockResult where
  ptr1 : List Nat
  ptr2 : List Nat
  len1 : Nat
  len2 : Nat
  deriving DecidableEq, Repr

/-- What the FMOD sound hands back to `SaveToWav`: `channels` and `bits` from
`FMOD_Sound_GetFormat`, `rate` the value of `(int)rate` for the float written
by `FMOD_Sound_GetDefaults`, `lenbytes` from `FMOD_Sound_GetLength`, and `lock`
the out-parameters of `FMOD_Sound_Lock(sound, 0, lenbytes, ...)`. -/
structure Sound where
  channels : Int
  bits : Int
  rate : Int
  lenbytes : Nat
  lock : LockResult
  deriving DecidableEq, Repr

/-- Initialiser of the variable `FmtChunk`. -/
def mkFmtChunk (channels bits rate : Int) : FmtChunkT :=
  { chunk := { id := tag4 'f' 'm' 't' ' ', size := wrapInt (sizeofFmtChunk - sizeofRiffChunk : Nat) }
    wFormatTag := 1
    nChannels := toUShort channels
    nSamplesPerSec := toUInt rate
    nAvgBytesPerSec := toUInt (idiv (imul (imul rate channels) bits) 8)
    nBlockAlign := toUShort (idiv (imul (imul 1 channels) bits) 8)
    wBitsPerSample := toUShort bits }

/-- Initialiser of the variable `DataChunk`. -/
def mkDataChunk (lenbytes : Nat) : DataChunkT :=
  { chunk := { id := tag4 'd' 'a' 't' 'a', size := wrapInt lenbytes } }

/-- Initialiser of the variable `WavHeader`. -/
def mkWavHeader (lenbytes : Nat) : WavHeaderT :=
  { chunk := { id := tag4 'R' 'I' 'F' 'F',
               size := wrapInt (sizeofFmtChunk + sizeofRiffChunk + lenbytes : Nat) }
    rifftype := tag4 'W' 'A' 'V' 'E' }

/-! ## Calls, results and the process monad -/

/-- Result codes of the FMOD library; only the comparison with `FMOD_OK` is
used by the program. -/
inductive FMOD_RESULT where
  | FMOD_OK
  | FMOD_ERR (code : Nat)
  deriving DecidableEq, Repr

open FMOD_RESULT

/-- Argument of `FMOD_System_SetOutput`. -/
inductive OutputType where
  | FMOD_OUTPUTTYPE_DSOUND
  | FMOD_OUTPUTTYPE_WINMM
  | FMOD_OUTPUTTYPE_ASIO
  deriving DecidableEq, Repr

open OutputType

/-- Argument of `FMOD_Sound_SetMode`. -/
inductive LoopMode where
  | FMOD_LOOP_NORMAL
  | FMOD_LOOP_OFF
  deriving DecidableEq, Repr

/-- Time unit argument of the length and position queries. -/
inductive TimeUnit where
  | FMOD_TIMEUNIT_PCM
  | FMOD_TIMEUNIT_PCMBYTES
  deriving DecidableEq, Repr

/-- Variadic argument of a `printf`. -/
inductive PrintArg where
  | int (n : Int)
  | str (s : String)
  | result (r : FMOD_RESULT)
  | errorString (r : FMOD_RESULT)
  deriving DecidableEq, Repr

/-- One call made by the program to the FMOD library, the C runtime or the
console, with the arguments that vary. -/
inductive Call where
  | printf (format : String) (args : List PrintArg)
  | getch
  | kbhit
  | Sleep (ms : Nat)
  | fopen (name mode : String)
  | fwrite (buffer : List Nat) (size count : Nat)
  | fclose
  | Sound_GetFormat
  | Sound_GetDefaults
  | Sound_GetLength (unit : TimeUnit)
  | Sound_Lock (offset length : Nat)
  | Sound_Unlock (len1 len2 : Nat)
  | Sound_SetMode (mode : LoopMode)
  | Sound_Release
  | System_Create
  | System_GetVersion
  | System_SetOutput (output : OutputType)
  | System_GetNumDrivers
  | System_GetDriverInfo (id : Int)
  | System_SetDriver (driver : Int)
  | System_GetRecordNumDrivers
  | System_GetRecordDriverInfo (id : Int)
  | System_Init (maxchannels : Nat)
  | System_CreateSound (numchannels defaultfrequency length : Nat)
  | System_RecordStart (id : Int) (loop : Bool)
  | System_RecordStop (id : Int)
  | System_IsRecording (id : Int)
  | System_GetRecordPosition (id : Int)
  | System_PlaySound
  | System_Update
  | System_Release
  | Channel_Stop (channel : Nat)
  | Channel_IsPlaying (channel : Nat)
  | Channel_GetPosition (channel : Nat) (unit : TimeUnit)
  deriving DecidableEq, Repr

/-- Ways in which the run of the program ends or cannot be followed further:
`exit code` is a call of `exit(code)`, `ret code` a `return code` of `main`,
`blocked` a wait for input where the supplied input is used up, and
`undefined` a call whose behaviour C leaves undefined (a null stream). -/
inductive Halt where
  | exit (code : Int)
  | ret (code : Int)
  | blocked
  | undefined
  deriving DecidableEq, Repr

/-- Either the value a piece of code continues with, or the end of the run. -/
inductive Res (α : Type) where
  | ok (a : α)
  | halt (h : Halt)
  deriving DecidableEq, Repr

/-- A piece of the program: the calls it made, in order, and how it went on. -/
structure Proc (α : Type) where
  calls : List Call
  res : Res α
  deriving DecidableEq, Repr

/-- Apply a function to the value a piece of code continues with. -/
def Res.map {α β : Type} (f : α → β) : Res α → Res β
  | .ok a => .ok (f a)
  | .halt h => .halt h

/-- Sequencing: the second piece runs only when the first one continues. -/
def Proc.bind {α β : Type} (p : Proc α) (f : α → Proc β) : Proc β :=
  match p.res with
  | .ok a => { calls := p.calls ++ (f a).calls, res := (f a).res }
  | .halt h => { calls := p.calls, res := .halt h }

instance : Monad Proc where
  pure a := { calls := [], res := .ok a }
  bind := Proc.bind

/-- Log one call. -/
def call (c : Call) : Proc Unit := { calls := [c], res := .ok () }

/-- End the run. -/
def halt {α : Type} (h : Halt) : Proc α := { calls := [], res := .halt h }

/-- The function `ERRCHECK`: on a result other than `FMOD_OK` print the error
and `exit(-1)`. -/
def ERRCHECK (result : FMOD_RESULT) : Proc Unit :=
  if result ≠ FMOD_OK then do
    call (.printf "FMOD error! (%d) %s\n" [.result result, .errorString result])
    halt (.exit (-1))
  else
    pure ()

/-! ## The file `record.wav` and the C stream functions -/

/-- State of the file system as far as `record.wav` is concerned: whether the
file can be created, how many more bytes the device accepts before writes come
up short, the contents of the file if it exists, and the number of streams the
program holds open. -/
structure FileSys where
  canCreate : Bool
  quota : Nat
  file : Option (List Nat)
  openStreams : Nat
  deriving DecidableEq, Repr

/-- A `FILE *`: `none` is the null pointer. -/
abbrev FILE := Option Unit

/-- The call `fopen("record.wav", "wb")`: creates or truncates the file, or
yields the null pointer. -/
def fopen (fs : FileSys) : Proc (FILE × FileSys) := do
  call (.fopen "record.wav" "wb")
  if fs.canCreate then
    pure (some (), { fs with file := some [], openStreams := fs.openStreams + 1 })
  else
    pure (none, fs)

/-- The call `fwrite(buffer, size, 1, fp)`: appends the first `size` bytes at
`buffer`, cut short to what the device still accepts.  The return value is
ignored by every caller.  A null stream is undefined behaviour. -/
def fwrite (buffer : List Nat) (size : Nat) (fp : FILE) (fs : FileSys) : Proc FileSys := do
  call (.fwrite buffer size 1)
  match fp with
  | none => halt .undefined
  | some _ =>
    let written := (buffer.take size).take fs.quota
    pure { fs with file := fs.file.map (· ++ written), quota := fs.quota - written.length }

/-- The call `fclose(fp)`.  A null stream is undefined behaviour. -/
def fclose (fp : FILE) (fs : FileSys) : Proc FileSys := do
  call .fclose
  match fp with
  | none => halt .undefined
  | some _ => pure { fs with openStreams := fs.openStreams - 1 }

/-- The function `SaveToWav`. -/
def SaveToWav (sound : Option Sound) (fs : FileSys) : Proc FileSys :=
  match sound with
  | none => pure fs
  | some sound => do
    call .Sound_GetFormat
    let channels := sound.channels
    let bits := sound.bits
    call .Sound_GetDefaults
    let rate := sound.rate
    call (.Sound_GetLength .FMOD_TIMEUNIT_PCMBYTES)
    let lenbytes := sound.lenbytes
    let FmtChunk := mkFmtChunk channels bits rate
    let DataChunk := mkDataChunk lenbytes
    let WavHeader := mkWavHeader lenbytes
    let (fp, fs) ← fopen fs
    let fs ← fwrite WavHeader.bytes sizeofWavHeader fp fs
    let fs ← fwrite FmtChunk.bytes sizeofFmtChunk fp fs
    let fs ← fwrite DataChunk.bytes sizeofDataChunk fp fs
    call (.Sound_Lock 0 lenbytes)
    let ptr1 := sound.lock.ptr1
    let len1 := sound.lock.len1
    let len2 := sound.lock.len2
    let fs ← fwrite ptr1 len1 fp fs
    call (.Sound_Unlock len1 len2)
    fclose fp fs

/-! ## The interactive loop of `main` -/

/-- Character constant as an `int`. -/
def chr (c : Char) : Int := c.toNat

/-- What the outside world supplies during one iteration of the main loop:
`kbhit` is the key returned by `_getch()` when `_kbhit()` is nonzero; the
next fields are the values returned by the calls a key can trigger
(`playChannel` is the handle `FMOD_System_PlaySound` stores in `channel`, and
`sound` is what the sound object hands to `SaveToWav`); the last five are the
out-parameters of the status queries made at the end of the iteration. -/
structure Tick where
  kbhit : Option Int
  recordStart : FMOD_RESULT
  playSound : FMOD_RESULT
  playChannel : Option Nat
  recordStop : FMOD_RESULT
  sound : Sound
  length : Nat
  recording : Int
  recordpos : Nat
  playing : Int
  playpos : Nat
  deriving DecidableEq, Repr

/-- Variables that live across iterations of the main loop: `key` and `result`
of `main`, the statics `channel` (`none` is the null handle) and `looping`
(an `int` that only ever holds 0 or 1), and the file system. -/
structure LoopState where
  key : Int
  result : FMOD_RESULT
  channel : Option Nat
  looping : Bool
  fs : FileSys
  deriving DecidableEq, Repr

/-- The statement `switch (key)` of the main loop, entered after
`key = _getch()`. -/
def handleKey (recorddriver : Int) (s : LoopState) (t : Tick) : Proc LoopState :=
  if s.key = chr 'r' ∨ s.key = chr 'R' then do
    call (.System_RecordStart recorddriver s.looping)
    let s := { s with result := t.recordStart }
    ERRCHECK s.result
    pure s
  else if s.key = chr 'p' ∨ s.key = chr 'P' then do
    if s.looping then
      call (.Sound_SetMode .FMOD_LOOP_NORMAL)
    else
      call (.Sound_SetMode .FMOD_LOOP_OFF)
    ERRCHECK s.result
    call .System_PlaySound
    let s := { s with result := t.playSound, channel := t.playChannel }
    ERRCHECK s.result
    pure s
  else if s.key = chr 'l' ∨ s.key = chr 'L' then
    pure { s with looping := !s.looping }
  else if s.key = chr 's' ∨ s.key = chr 'S' then do
    call (.System_RecordStop recorddriver)
    let s := { s with result := t.recordStop }
    match s.channel with
    | some channel => do
      call (.Channel_Stop channel)
      pure { s with channel := none }
    | none => pure s
  else if s.key = chr 'w' ∨ s.key = chr 'W' then do
    call (.printf "Writing to record.wav ...                                                     \r" [])
    let fs ← SaveToWav (some t.sound) s.fs
    call (.Sleep 500)
    pure { s with fs := fs }
  else
    pure s

/-- Values shown by the status line of one iteration. -/
structure Status where
  recording : Int
  playing : Int
  recordpos : Nat
  playpos : Nat
  deriving DecidableEq, Repr

/-- The status line `printf` of the main loop. -/
def printStatus (st : Status) (looping : Bool) : Call :=
  .printf "State: %-19s. Record pos = %6d : Play pos = %6d : Loop %-3s\r"
    [.str (if st.recording ≠ 0 then (if st.playing ≠ 0 then "Recording / playing" else "Recording")
           else (if st.playing ≠ 0 then "Playing" else "Idle")),
     .int st.recordpos, .int st.playpos, .str (if looping then "On" else "Off")]

/-- The channel queries made when `channel` is not null; `playing` and
`playpos` keep their initial value 0 otherwise. -/
def pollChannel (s : LoopState) (t : Tick) : Proc (Int × Nat) :=
  match s.channel with
  | some channel => do
    call (.Channel_IsPlaying channel)
    ERRCHECK s.result
    call (.Channel_GetPosition channel .FMOD_TIMEUNIT_PCM)
    ERRCHECK s.result
    pure (t.playing, t.playpos)
  | none => pure (0, 0)

/-- The part of the loop body after the key switch: status queries, each
followed by `ERRCHECK(result)` on the result left by the key switch, the
status line, `FMOD_System_Update` and `Sleep(10)`. -/
def poll (recorddriver : Int) (s : LoopState) (t : Tick) : Proc Status := do
  call (.Sound_GetLength .FMOD_TIMEUNIT_PCM)
  ERRCHECK s.result
  call (.System_IsRecording recorddriver)
  ERRCHECK s.result
  call (.System_GetRecordPosition recorddriver)
  ERRCHECK s.result
  let (playing, playpos) ← pollChannel s t
  let st : Status :=
    { recording := t.recording, playing := playing, recordpos := t.recordpos, playpos := playpos }
  call (printStatus st s.looping)
  call .System_Update
  call (.Sleep 10)
  pure st

/-- The `if (_kbhit())` statement at the top of the loop body. -/
def readKey (recorddriver : Int) (s : LoopState) (t : Tick) : Proc LoopState := do
  call .kbhit
  match t.kbhit with
  | some key => do
    call .getch
    handleKey recorddriver { s with key := key } t
  | none => pure s

/-- One iteration of the main loop body. -/
def iteration (recorddriver : Int) (s : LoopState) (t : Tick) : Proc LoopState := do
  let s ← readKey recorddriver s t
  let _ ← poll recorddriver s t
  pure s

/-- The main loop `do ... while (key != 27)`, run against the ticks the
outside world supplies; the run cannot be followed once they are used up. -/
def mainLoop (recorddriver : Int) : LoopState → List Tick → Proc LoopState
  | _, [] => halt .blocked
  | s, t :: ticks => do
    let s ← iteration recorddriver s t
    if s.key ≠ 27 then mainLoop recorddriver s ticks else pure s

/-! ## The function `main` -/

/-- Text of a ruled line of the dialogue: `n` times the character `c`, then a
newline. -/
def rule (c : Char) (n : Nat) : String := String.mk (List.replicate n c) ++ "\n"

/-- Everything the outside world supplies to one run of `main`: the value of
the constant `FMOD_VERSION` of `fmod.h`, the result codes and out-parameters
of the start-up calls, the keys read by the blocking `_getch()` calls of the
selection dialogue, the file system, the ticks of the main loop and the result
codes of the two release calls. -/
structure World where
  FMOD_VERSION : Nat
  systemCreate : FMOD_RESULT
  getVersion : FMOD_RESULT
  version : Nat
  keys : List Int
  setOutput : FMOD_RESULT
  getNumDrivers : FMOD_RESULT
  numdrivers : Int
  getDriverInfo : Int → FMOD_RESULT × String
  setDriver : FMOD_RESULT
  getRecordNumDrivers : FMOD_RESULT
  recordNumdrivers : Int
  getRecordDriverInfo : Int → FMOD_RESULT × String
  systemInit : FMOD_RESULT
  createSound : FMOD_RESULT
  fs : FileSys
  ticks : List Tick
  soundRelease : FMOD_RESULT
  systemRelease : FMOD_RESULT

/-- Subtraction of two `int` operands. -/
def isub (a b : Int) : Int := wrapInt (a - b)

/-- Continuation condition of the output selection loop, as written:
`key != 27 && key < '1' && key > '5'`. -/
def outputLoopCond (key : Int) : Bool :=
  decide (key ≠ 27) && decide (key < chr '1') && decide (key > chr '5')

/-- The loop `do { key = _getch(); } while (key != 27 && key < '1' && key > '5');`
run against the keys still to be typed; yields `key` and the keys left. -/
def selectOutputKey : List Int → Proc (Int × List Int)
  | [] => do
    call .getch
    halt .blocked
  | key :: keys => do
    call .getch
    if outputLoopCond key then selectOutputKey keys else pure (key, keys)

/-- The statement `switch (key)` that sets the output type; yields `result`. -/
def setOutput (w : World) (key : Int) : Proc FMOD_RESULT :=
  if key = chr '1' then do
    call (.System_SetOutput FMOD_OUTPUTTYPE_DSOUND)
    pure w.setOutput
  else if key = chr '2' then do
    call (.System_SetOutput FMOD_OUTPUTTYPE_WINMM)
    pure w.setOutput
  else if key = chr '3' then do
    call (.System_SetOutput FMOD_OUTPUTTYPE_ASIO)
    pure w.setOutput
  else
    halt (.ret 1)

/-- The loops `for (count=0; count < numdrivers; count++)` that list the
drivers: `query` is the call made for one driver and `info` what it hands
back; `n` bounds the iterations left. -/
def listDrivers (query : Int → Call) (info : Int → FMOD_RESULT × String) (numdrivers : Int) :
    Nat → Int → Proc Unit
  | 0, _ => pure ()
  | n + 1, count =>
    if count < numdrivers then do
      call (query count)
      ERRCHECK (info count).1
      call (.printf "%d : %s\n" [.int (count + 1), .str (info count).2])
      listDrivers query info numdrivers n (count + 1)
    else
      pure ()

/-- The loops `do { key = _getch(); if (key == 27) return 0; driver = key - '1'; }
while (driver < 0 || driver >= numdrivers);` of the playback and of the record
driver selection; yields `key`, the driver chosen and the keys left. -/
def selectDriver (numdrivers : Int) : List Int → Proc (Int × Int × List Int)
  | [] => do
    call .getch
    halt .blocked
  | key :: keys => do
    call .getch
    if key = 27 then
      halt (.ret 0)
    else
      let driver := isub key (chr '1')
      if driver < 0 ∨ driver ≥ numdrivers then selectDriver numdrivers keys
      else pure (key, driver, keys)

/-- The function `main`.  It always ends the run: by `return`, by the `exit`
of `ERRCHECK`, or where the supplied input is used up. -/
def main (w : World) : Proc Unit := do
  call .System_Create
  ERRCHECK w.systemCreate
  call .System_GetVersion
  ERRCHECK w.getVersion
  if w.version < w.FMOD_VERSION then do
    call (.printf "Error!  You are using an old version of FMOD %08x.  This program requires %08x\n"
      [.int w.version, .int w.FMOD_VERSION])
    halt (.ret 0)
  else do
    call (.printf (rule '-' 57) [])
    call (.printf "Select OUTPUT type\n" [])
    call (.printf (rule '-' 57) [])
    call (.printf "1 :  DirectSound\n" [])
    call (.printf "2 :  Windows Multimedia WaveOut\n" [])
    call (.printf "3 :  ASIO\n" [])
    call (.printf (rule '-' 57) [])
    call (.printf "Press a corresponding number or ESC to quit\n" [])
    let (key, keys) ← selectOutputKey w.keys
    let result ← setOutput w key
    ERRCHECK result
    call .System_GetNumDrivers
    ERRCHECK w.getNumDrivers
    call (.printf (rule '-' 57) [])
    call (.printf "Choose a PLAYBACK driver\n" [])
    call (.printf (rule '-' 57) [])
    listDrivers .System_GetDriverInfo w.getDriverInfo w.numdrivers w.numdrivers.toNat 0
    call (.printf (rule '-' 57) [])
    call (.printf "Press a corresponding number or ESC to quit\n" [])
    let (_, driver, keys) ← selectDriver w.numdrivers keys
    call (.System_SetDriver driver)
    ERRCHECK w.setDriver
    call .System_GetRecordNumDrivers
    ERRCHECK w.getRecordNumDrivers
    call (.printf (rule '-' 57) [])
    call (.printf "Choose a RECORD driver\n" [])
    call (.printf (rule '-' 57) [])
    listDrivers .System_GetRecordDriverInfo w.getRecordDriverInfo w.recordNumdrivers
      w.recordNumdrivers.toNat 0
    call (.printf (rule '-' 57) [])
    call (.printf "Press a corresponding number or ESC to quit\n" [])
    let (key, recorddriver, _) ← selectDriver w.recordNumdrivers keys
    call (.printf "\n" [])
    call (.System_Init 32)
    ERRCHECK w.systemInit
    call (.System_CreateSound 1 44100 (44100 * 2 * 1 * 5))
    ERRCHECK w.createSound
    call (.printf (rule '=' 67) [])
    call (.printf "Recording example.  Copyright (c) Firelight Technologies 2004-2015.\n" [])
    call (.printf (rule '=' 67) [])
    call (.printf "\n" [])
    call (.printf "Press 'r' to record a 5 second segment of audio and write it to a wav file.\n" [])
    call (.printf "Press 'p' to play the 5 second segment of audio.\n" [])
    call (.printf "Press 'l' to turn looping on/off.\n" [])
    call (.printf "Press 's' to stop recording and playback.\n" [])
    call (.printf "Press 'w' to save the 5 second segment to a wav file.\n" [])
    call (.printf "Press 'Esc' to quit\n" [])
    call (.printf "\n" [])
    let _ ← mainLoop recorddriver
      { key := key, result := w.createSound, channel := none, looping := false, fs := w.fs } w.ticks
    call (.printf "\n" [])
    call .Sound_Release
    ERRCHECK w.soundRelease
    call .System_Release
    ERRCHECK w.systemRelease
    halt (.ret 0)

/-! ## Reading the container back

The program never reads `record.wav`.  The definitions of this section are the
reader side of the container layout of the specification (tag, size and
fields at fixed offsets); they serve to state what a re-parse of the produced
file yields. -/

/-- Little-endian reading of the first two bytes of a list. -/
def readLE16 (bs : List Nat) : Nat := bs.getD 0 0 + 256 * bs.getD 1 0

/-- Little-endian reading of the first four bytes of a list. -/
def readLE32 (bs : List Nat) : Nat :=
  bs.getD 0 0 + 256 * bs.getD 1 0 + 65536 * bs.getD 2 0 + 16777216 * bs.getD 3 0

/-- Fields and payload found by `reparse`. -/
structure ParsedWav where
  riffSize : Nat
  fmtSize : Nat
  formatTag : Nat
  channels : Nat
  sampleRate : Nat
  byteRate : Nat
  blockAlign : Nat
  bitsPerSample : Nat
  dataSize : Nat
  payload : List Nat
  deriving DecidableEq, Repr

/-- Reader of the container of the specification: an outer chunk with tag
`RIFF`, a size and the type tag `WAVE`; a chunk tagged `fmt ` with its size and
the six format fields; a chunk tagged `data` with its size followed by that
many payload bytes.  Yields `none` when a tag is wrong or the payload is
shorter than the data chunk declares. -/
def reparse (file : List Nat) : Option ParsedWav :=
  if file.take 4 = tag4 'R' 'I' 'F' 'F' ∧ (file.drop 8).take 4 = tag4 'W' 'A' 'V' 'E'
      ∧ (file.drop 12).take 4 = tag4 'f' 'm' 't' ' ' then
    let fmtSize := readLE32 (file.drop 16)
    let rest := file.drop (20 + fmtSize)
    if rest.take 4 = tag4 'd' 'a' 't' 'a' then
      let dataSize := readLE32 (rest.drop 4)
      let payload := (rest.drop 8).take dataSize
      if payload.length = dataSize then
        some { riffSize := readLE32 (file.drop 4)
               fmtSize := fmtSize
               formatTag := readLE16 (file.drop 20)
               channels := readLE16 (file.drop 22)
               sampleRate := readLE32 (file.drop 24)
               byteRate := readLE32 (file.drop 28)
               blockAlign := readLE16 (file.drop 32)
               bitsPerSample := readLE16 (file.drop 34)
               dataSize := dataSize
               payload := payload }
      else none
    else none
  else none

/-- All the bytes `SaveToWav` hands to `fwrite`, in order: the three header
structures and the first locked segment. -/
def wavImage (sound : Sound) : List Nat :=
  (mkWavHeader sound.lenbytes).bytes ++ (mkFmtChunk sound.channels sound.bits sound.rate).bytes
    ++ (mkDataChunk sound.lenbytes).bytes ++ sound.lock.ptr1.take sound.lock.len1

/-- The layout read by `reparse`, with the field values left open. -/
def layout (riff ch rate brate align bits n : Nat) (P : List Nat) : List Nat :=
  tag4 'R' 'I' 'F' 'F' ++ (le32 riff ++ (tag4 'W' 'A' 'V' 'E' ++ (tag4 'f' 'm' 't' ' '
    ++ (le32 16 ++ (le16 1 ++ (le16 ch ++ (le32 rate ++ (le32 brate ++ (le16 align ++ (le16 bits
    ++ (tag4 'd' 'a' 't' 'a' ++ (le32 n ++ P))))))))))))

/-- The format chunk as the specification lays it out for channel count `c`,
bits per sample `b` and sample rate `r`: tag `fmt `, chunk size 16, then
formatTag = 1 (u16), channels (u16), sampleRate (u32), byteRate = r*c*b/8
(u32), blockAlign = c*b/8 (u16) and bitsPerSample (u16), little-endian. -/
def fmtChunkImage (c b r : Nat) : List Nat :=
  tag4 'f' 'm' 't' ' ' ++ le32 16 ++ le16 1 ++ le16 c ++ le32 r ++ le32 (r * c * b / 8)
    ++ le16 (c * b / 8) ++ le16 b

/-! ## Concrete inputs used by the examples -/

/-- A mono 16-bit 44100 Hz sound whose record buffer holds the four bytes
1, 2, 3, 4 in one segment. -/
def demoSound : Sound :=
  { channels := 1, bits := 16, rate := 44100, lenbytes := 4
    lock := { ptr1 := [1, 2, 3, 4], ptr2 := [], len1 := 4, len2 := 0 } }

/-- A file system on which `record.wav` can be created and written in full. -/
def demoFs : FileSys := { canCreate := true, quota := 1000, file := none, openStreams := 0 }

/-- A file system that accepts 46 more bytes: the fourth write of a save of
`demoSound` comes up short. -/
def shortFs : FileSys := { canCreate := true, quota := 46, file := none, openStreams := 0 }

/-- The 48 bytes that a save of `demoSound` hands to `fwrite`. -/
def demoFile : List Nat :=
  [82, 73, 70, 70, 36, 0, 0, 0, 87, 65, 86, 69,
   102, 109, 116, 32, 16, 0, 0, 0, 1, 0, 1, 0, 68, 172, 0, 0, 136, 88, 1, 0, 2, 0, 16, 0,
   100, 97, 116, 97, 4, 0, 0, 0,
   1, 2, 3, 4]

/-- State at the top of the main loop right after start-up: nothing recorded,
no channel, looping off. -/
def idleState : LoopState :=
  { key := 49, result := .FMOD_OK, channel := none, looping := false, fs := demoFs }

/-- A tick in which no key is pressed, every call succeeds, and the devices
report no capture and no playback. -/
def quietTick : Tick :=
  { kbhit := none, recordStart := .FMOD_OK, playSound := .FMOD_OK, playChannel := some 7
    recordStop := .FMOD_OK, sound := demoSound, length := 220500
    recording := 0, recordpos := 0, playing := 0, playpos := 0 }

/-- The key `r` is pressed and capture starts at position 0. -/
def recordTick : Tick := { quietTick with kbhit := some 114, recording := 1 }

/-- The key `p` is pressed in the next iteration while capture is still at
position 0; playback starts on channel 7. -/
def playTick : Tick := { quietTick with kbhit := some 112, recording := 1, playing := 1 }

/-- A later iteration: the capture device reports position 100, the playback
channel position 441. -/
def aheadTick : Tick :=
  { quietTick with recording := 1, recordpos := 100, playing := 1, playpos := 441 }

/-- The key `p` is pressed with nothing captured and capture inactive; the
play call succeeds and the channel reports that it is playing. -/
def idlePlayTick : Tick := { quietTick with kbhit := some 112, playing := 1 }

/-- The key `r` is pressed and `FMOD_System_RecordStart` reports an error. -/
def failedRecordTick : Tick := { quietTick with kbhit := some 114, recordStart := .FMOD_ERR 1 }

/-- The key `p` is pressed and `FMOD_System_PlaySound` reports an error. -/
def failedPlayTick : Tick := { quietTick with kbhit := some 112, playSound := .FMOD_ERR 2 }

/-- The key `s` is pressed and `FMOD_System_RecordStop` reports success. -/
def stopTick : Tick := { quietTick with kbhit := some 115 }

/-- A run in which every start-up call succeeds, the library is recent enough,
two playback drivers and one record driver exist, and the given keys are
typed during the selection dialogue. -/
def demoWorld (keys : List Int) : World :=
  { FMOD_VERSION := 100, systemCreate := .FMOD_OK, getVersion := .FMOD_OK, version := 100
    keys := keys, setOutput := .FMOD_OK, getNumDrivers := .FMOD_OK, numdrivers := 2
    getDriverInfo := fun _ => (.FMOD_OK, "speakers"), setDriver := .FMOD_OK
    getRecordNumDrivers := .FMOD_OK, recordNumdrivers := 1
    getRecordDriverInfo := fun _ => (.FMOD_OK, "microphone"), systemInit := .FMOD_OK
    createSound := .FMOD_OK, fs := demoFs, ticks := [{ quietTick with kbhit := some 27 }]
    soundRelease := .FMOD_OK, systemRelease := .FMOD_OK }


/-! ## Machine integers -/

theorem toUShort_natCast (n : Nat) (h : n < 65536) : toUShort (n : Int) = n := by
  unfold toUShort; omega

theorem toUInt_natCast (n : Nat) (h : n < 4294967296) : toUInt (n : Int) = n := by
  unfold toUInt; omega

theorem toUShort_lt (x : Int) : toUShort x < 65536 := by
  unfold toUShort; omega

theorem toUInt_lt (x : Int) : toUInt x < 4294967296 := by
  unfold toUInt; omega

theorem toUInt_wrapInt (x : Int) : toUInt (wrapInt x) = toUInt x := by
  unfold toUInt wrapInt; omega

theorem wrapInt_of_range (x : Int) (h0 : -2147483648 ≤ x) (h1 : x < 2147483648) :
    wrapInt x = x := by
  unfold wrapInt; omega

theorem wrapInt_mul_left (x y : Int) : wrapInt (wrapInt x * y) = wrapInt (x * y) := by
  have hx : wrapInt x = x - 4294967296 * ((x + 2147483648) / 4294967296) := by
    unfold wrapInt; omega
  have hr : (x - 4294967296 * ((x + 2147483648) / 4294967296)) * y
      = x * y - 4294967296 * (((x + 2147483648) / 4294967296) * y) := by ring
  rw [hx, hr]
  generalize x * y = z
  generalize ((x + 2147483648) / 4294967296) * y = m
  unfold wrapInt; omega

theorem idiv_natCast (n : Nat) : idiv (n : Int) 8 = ((n / 8 : Nat) : Int) := by
  unfold idiv
  rw [Int.tdiv_eq_ediv (by omega) (by omega)]
  norm_cast

theorem byteRate_eq (c b r : Nat) (h : r * c * b < 2147483648) :
    toUInt (idiv (imul (imul r c) b) 8) = r * c * b / 8 := by
  unfold imul
  rw [wrapInt_mul_left]
  have e : ((r : Int) * c * b) = ((r * c * b : Nat) : Int) := by push_cast; ring
  rw [e, wrapInt_of_range _ (by omega) (by exact_mod_cast h), idiv_natCast, toUInt_natCast]
  omega

theorem blockAlign_eq (c b : Nat) (h : c * b / 8 < 65536) :
    toUShort (idiv (imul (imul 1 c) b) 8) = c * b / 8 := by
  unfold imul
  rw [wrapInt_mul_left]
  have e : ((1 : Int) * c * b) = ((c * b : Nat) : Int) := by push_cast; ring
  have hcb : c * b < 2147483648 := by omega
  rw [e, wrapInt_of_range _ (by omega) (by exact_mod_cast hcb), idiv_natCast, toUShort_natCast]
  exact h

/-! ## Byte images and the reader -/

theorem le32_length (n : Nat) : (le32 n).length = 4 := rfl

theorem le16_length (n : Nat) : (le16 n).length = 2 := rfl

theorem tag4_length (a b c d : Char) : (tag4 a b c d).length = 4 := rfl

theorem wavHeader_length (n : Nat) : (mkWavHeader n).bytes.length = 12 := rfl

theorem fmtChunk_length (c b r : Int) : (mkFmtChunk c b r).bytes.length = 24 := rfl

theorem dataChunk_length (n : Nat) : (mkDataChunk n).bytes.length = 8 := rfl

theorem take_sizeofWavHeader (n : Nat) :
    (mkWavHeader n).bytes.take sizeofWavHeader = (mkWavHeader n).bytes := rfl

theorem take_sizeofFmtChunk (c b r : Int) :
    (mkFmtChunk c b r).bytes.take sizeofFmtChunk = (mkFmtChunk c b r).bytes := rfl

theorem take_sizeofDataChunk (n : Nat) :
    (mkDataChunk n).bytes.take sizeofDataChunk = (mkDataChunk n).bytes := rfl

theorem readLE32_le32 (n : Nat) (rest : List Nat) (h : n < 4294967296) :
    readLE32 (le32 n ++ rest) = n := by
  simp [readLE32, le32]; omega

theorem readLE16_le16 (n : Nat) (rest : List Nat) (h : n < 65536) :
    readLE16 (le16 n ++ rest) = n := by
  simp [readLE16, le16]; omega

theorem fmt_size_field :
    toUInt ((sizeofFmtChunk - sizeofRiffChunk : Nat) : Int) = 16 := by decide

theorem layout_length (riff ch rate brate align bits n : Nat) (P : List Nat) :
    (layout riff ch rate brate align bits n P).length = 44 + P.length := by
  simp only [layout, List.length_append, le32_length, le16_length, tag4_length]
  omega

/-- The bytes handed to `fwrite` follow the layout read by `reparse`. -/
theorem wavImage_eq_layout (s : Sound) :
    wavImage s = layout (toUInt (sizeofFmtChunk + sizeofRiffChunk + s.lenbytes : Nat))
      (toUShort s.channels) (toUInt s.rate)
      (toUInt (idiv (imul (imul s.rate s.channels) s.bits) 8))
      (toUShort (idiv (imul (imul 1 s.channels) s.bits) 8)) (toUShort s.bits)
      (toUInt s.lenbytes) (s.lock.ptr1.take s.lock.len1) := by
  simp only [wavImage, layout, mkWavHeader, mkFmtChunk, mkDataChunk, WavHeaderT.bytes,
    FmtChunkT.bytes, DataChunkT.bytes, RiffChunk.bytes, toUInt_wrapInt, fmt_size_field,
    List.append_assoc]

theorem reparse_layout (riff ch rate brate align bits n : Nat) (P : List Nat)
    (hriff : riff < 4294967296) (hch : ch < 65536) (hrate : rate < 4294967296)
    (hbrate : brate < 4294967296) (halign : align < 65536) (hbits : bits < 65536)
    (hn : n < 4294967296) (hP : P.length = n) :
    reparse (layout riff ch rate brate align bits n P) = some
      { riffSize := riff, fmtSize := 16, formatTag := 1, channels := ch, sampleRate := rate,
        byteRate := brate, blockAlign := align, bitsPerSample := bits, dataSize := n,
        payload := P } := by
  subst hP
  have d4 : (layout riff ch rate brate align bits P.length P).drop 4 =
      le32 riff ++ (tag4 'W' 'A' 'V' 'E' ++ (tag4 'f' 'm' 't' ' ' ++ (le32 16 ++ (le16 1
        ++ (le16 ch ++ (le32 rate ++ (le32 brate ++ (le16 align ++ (le16 bits
        ++ (tag4 'd' 'a' 't' 'a' ++ (le32 P.length ++ P))))))))))) := rfl
  have d8 : (layout riff ch rate brate align bits P.length P).drop 8 =
      tag4 'W' 'A' 'V' 'E' ++ (tag4 'f' 'm' 't' ' ' ++ (le32 16 ++ (le16 1 ++ (le16 ch
        ++ (le32 rate ++ (le32 brate ++ (le16 align ++ (le16 bits ++ (tag4 'd' 'a' 't' 'a'
        ++ (le32 P.length ++ P)))))))))) := rfl
  have d12 : (layout riff ch rate brate align bits P.length P).drop 12 =
      tag4 'f' 'm' 't' ' ' ++ (le32 16 ++ (le16 1 ++ (le16 ch ++ (le32 rate ++ (le32 brate
        ++ (le16 align ++ (le16 bits ++ (tag4 'd' 'a' 't' 'a' ++ (le32 P.length
        ++ P))))))))) := rfl
  have d16 : (layout riff ch rate brate align bits P.length P).drop 16 =
      le32 16 ++ (le16 1 ++ (le16 ch ++ (le32 rate ++ (le32 brate ++ (le16 align ++ (le16 bits
        ++ (tag4 'd' 'a' 't' 'a' ++ (le32 P.length ++ P)))))))) := rfl
  have d20 : (layout riff ch rate brate align bits P.length P).drop 20 =
      le16 1 ++ (le16 ch ++ (le32 rate ++ (le32 brate ++ (le16 align ++ (le16 bits
        ++ (tag4 'd' 'a' 't' 'a' ++ (le32 P.length ++ P))))))) := rfl
  have d22 : (layout riff ch rate brate align bits P.length P).drop 22 =
      le16 ch ++ (le32 rate ++ (le32 brate ++ (le16 align ++ (le16 bits ++ (tag4 'd' 'a' 't' 'a'
        ++ (le32 P.length ++ P)))))) := rfl
  have d24 : (layout riff ch rate brate align bits P.length P).drop 24 =
      le32 rate ++ (le32 brate ++ (le16 align ++ (le16 bits ++ (tag4 'd' 'a' 't' 'a'
        ++ (le32 P.length ++ P))))) := rfl
  have d28 : (layout riff ch rate brate align bits P.length P).drop 28 =
      le32 brate ++ (le16 align ++ (le16 bits ++ (tag4 'd' 'a' 't' 'a' ++ (le32 P.length
        ++ P)))) := rfl
  have d32 : (layout riff ch rate brate align bits P.length P).drop 32 =
      le16 align ++ (le16 bits ++ (tag4 'd' 'a' 't' 'a' ++ (le32 P.length ++ P))) := rfl
  have d34 : (layout riff ch rate brate align bits P.length P).drop 34 =
      le16 bits ++ (tag4 'd' 'a' 't' 'a' ++ (le32 P.length ++ P)) := rfl
  have d36 : (layout riff ch rate brate align bits P.length P).drop (20 + 16) =
      tag4 'd' 'a' 't' 'a' ++ (le32 P.length ++ P) := rfl
  have t0 : (layout riff ch rate brate align bits P.length P).take 4 = tag4 'R' 'I' 'F' 'F' :=
    rfl
  have e4 : (tag4 'd' 'a' 't' 'a' ++ (le32 P.length ++ P)).drop 4 = le32 P.length ++ P := rfl
  have e8 : (tag4 'd' 'a' 't' 'a' ++ (le32 P.length ++ P)).drop 8 = P := rfl
  have tk (t : List Nat) (ht : t.length = 4) (r : List Nat) : (t ++ r).take 4 = t :=
    List.take_left' ht
  unfold reparse
  simp only [d4, d8, d12, d16, d20, d22, d24, d28, d32, d34, t0, tk _ (tag4_length _ _ _ _),
    readLE32_le32 _ _ hriff, readLE32_le32 16 _ (by omega), d36, e4, e8, readLE32_le32 _ _ hn,
    readLE16_le16 _ _ hch, readLE16_le16 1 _ (by omega), readLE32_le32 _ _ hrate,
    readLE32_le32 _ _ hbrate, readLE16_le16 _ _ halign, readLE16_le16 _ _ hbits, and_self,
    if_true, List.take_length]

/-! ## `SaveToWav` -/

/-- When `record.wav` can be created, `SaveToWav` returns with the file holding
the bytes handed to `fwrite`, cut to what the device accepted, and with the
stream closed again. -/
theorem SaveToWav_created (s : Sound) (fs : FileSys) (h : fs.canCreate = true) :
    (SaveToWav (some s) fs).res = .ok
      { fs with file := some ((wavImage s).take fs.quota),
                quota := fs.quota - (wavImage s).length } := by
  simp [SaveToWav, bind, Proc.bind, pure, call, fopen, fwrite, fclose, h, wavImage,
    take_sizeofWavHeader, take_sizeofFmtChunk, take_sizeofDataChunk,
    wavHeader_length, fmtChunk_length, dataChunk_length]
  constructor
  · omega
  · rw [List.take_append_eq_append_take, List.take_append_eq_append_take,
      List.take_append_eq_append_take, wavHeader_length, fmtChunk_length, dataChunk_length]
    have e1 : fs.quota - fs.quota ⊓ 12 = fs.quota - 12 := by omega
    have e2 : fs.quota - 12 - (fs.quota - 12) ⊓ 24 = fs.quota - 12 - 24 := by omega
    have e3 : fs.quota - 12 - 24 - (fs.quota - 12 - 24) ⊓ 8 = fs.quota - 12 - 24 - 8 := by
      omega
    rw [e1, e2, e3]

/-- The calls of a save whose file could be created. -/
theorem SaveToWav_calls (s : Sound) (fs : FileSys) (h : fs.canCreate = true) :
    (SaveToWav (some s) fs).calls =
      [.Sound_GetFormat, .Sound_GetDefaults, .Sound_GetLength .FMOD_TIMEUNIT_PCMBYTES,
       .fopen "record.wav" "wb",
       .fwrite (mkWavHeader s.lenbytes).bytes sizeofWavHeader 1,
       .fwrite (mkFmtChunk s.channels s.bits s.rate).bytes sizeofFmtChunk 1,
       .fwrite (mkDataChunk s.lenbytes).bytes sizeofDataChunk 1,
       .Sound_Lock 0 s.lenbytes,
       .fwrite s.lock.ptr1 s.lock.len1 1,
       .Sound_Unlock s.lock.len1 s.lock.len2,
       .fclose] := by
  simp [SaveToWav, bind, Proc.bind, pure, call, fopen, fwrite, fclose, h]

theorem layout_drop36 (riff ch rate brate align bits n : Nat) (P : List Nat) :
    (layout riff ch rate brate align bits n P).drop 36 = tag4 'd' 'a' 't' 'a' ++ (le32 n ++ P) :=
  rfl

theorem layout_drop40 (riff ch rate brate align bits n : Nat) (P : List Nat) :
    (layout riff ch rate brate align bits n P).drop 40 = le32 n ++ P := rfl

theorem layout_drop44 (riff ch rate brate align bits n : Nat) (P : List Nat) :
    (layout riff ch rate brate align bits n P).drop 44 = P := rfl

/-- C1: for a record buffer `buf` of `L` bytes that the lock hands back as one
segment of length `L`, the file produced by `SaveToWav` has at offset 36 the
tag `data`, then the size field `L`, then exactly the bytes of `buf`; reading
the file back yields a data chunk of size `L` whose payload is `buf`. -/
theorem SaveToWav_data_chunk_roundtrip (s : Sound) (fs : FileSys) (buf ptr2 : List Nat)
    (hlen : s.lenbytes = buf.length) (h32 : buf.length < 4294967296)
    (hlock : s.lock = { ptr1 := buf, ptr2 := ptr2, len1 := buf.length, len2 := 0 })
    (hcreate : fs.canCreate = true) (hroom : 44 + buf.length ≤ fs.quota) :
    ∃ fs1 file, (SaveToWav (some s) fs).res = .ok fs1 ∧ fs1.file = some file ∧
      (file.drop 36).take 4 = tag4 'd' 'a' 't' 'a' ∧
      readLE32 (file.drop 40) = buf.length ∧
      file.drop 44 = buf ∧
      (reparse file).map (fun p => (p.dataSize, p.payload)) = some (buf.length, buf) := by
  refine ⟨_, _, SaveToWav_created s fs hcreate, rfl, ?_⟩
  have hP : s.lock.ptr1.take s.lock.len1 = buf := by simp [hlock]
  have hfull : (wavImage s).take fs.quota = wavImage s := by
    apply List.take_of_length_le
    rw [wavImage_eq_layout, layout_length, hP]
    exact hroom
  have hn : toUInt (s.lenbytes : Int) = buf.length := by
    rw [hlen]; exact toUInt_natCast _ h32
  rw [hfull, wavImage_eq_layout, hP, hn]
  refine ⟨?_, ?_, ?_, ?_⟩
  · rw [layout_drop36]; exact List.take_left' (tag4_length _ _ _ _)
  · rw [layout_drop40]; exact readLE32_le32 _ _ h32
  · exact layout_drop44 _ _ _ _ _ _ _ _
  · rw [reparse_layout _ _ _ _ _ _ _ _ (toUInt_lt _) (toUShort_lt _) (toUInt_lt _) (toUInt_lt _)
      (toUShort_lt _) (toUShort_lt _) h32 rfl]
    rfl

theorem SaveToWav_data_chunk_roundtrip_witness :
    demoSound.lenbytes = [1, 2, 3, 4].length ∧
    ∃ fs1 file, (SaveToWav (some demoSound) demoFs).res = .ok fs1 ∧ fs1.file = some file ∧
      (file.drop 36).take 4 = tag4 'd' 'a' 't' 'a' ∧
      readLE32 (file.drop 40) = [1, 2, 3, 4].length ∧
      file.drop 44 = [1, 2, 3, 4] ∧
      (reparse file).map (fun p => (p.dataSize, p.payload)) = some ([1, 2, 3, 4].length, [1, 2, 3, 4]) :=
  ⟨rfl, SaveToWav_data_chunk_roundtrip demoSound demoFs [1, 2, 3, 4] [] rfl (by decide) rfl rfl
    (by decide)⟩

/-- C2: for channel count `c`, bits per sample `b` and sample rate `r` whose
products fit (`c`, `b` and `c*b/8` in 16 bits, `r` and `r*c*b` in an `int`),
the 24 bytes that `SaveToWav` writes at offset 12 are the format chunk of the
specification: tag `fmt `, size 16, formatTag 1, channels `c`, sampleRate `r`,
byteRate `r*c*b/8`, blockAlign `c*b/8`, bitsPerSample `b`, little-endian, and
each field reads back as that value; mono 16-bit 44100 Hz gives byteRate 88200
and blockAlign 2. -/
theorem SaveToWav_fmt_chunk (s : Sound) (fs : FileSys) (c b r : Nat)
    (hc : s.channels = c) (hb : s.bits = b) (hr : s.rate = r)
    (hcw : c < 65536) (hbw : b < 65536) (hrw : r < 2147483648)
    (hrate : r * c * b < 2147483648) (halign : c * b / 8 < 65536)
    (hcreate : fs.canCreate = true) (hroom : 36 ≤ fs.quota) :
    (∃ fs1 file, (SaveToWav (some s) fs).res = .ok fs1 ∧ fs1.file = some file ∧
      (file.drop 12).take 24 = fmtChunkImage c b r) ∧
    (fmtChunkImage c b r).length = 24 ∧
    (fmtChunkImage c b r).take 4 = tag4 'f' 'm' 't' ' ' ∧
    readLE32 ((fmtChunkImage c b r).drop 4) = 16 ∧
    readLE16 ((fmtChunkImage c b r).drop 8) = 1 ∧
    readLE16 ((fmtChunkImage c b r).drop 10) = c ∧
    readLE32 ((fmtChunkImage c b r).drop 12) = r ∧
    readLE32 ((fmtChunkImage c b r).drop 16) = r * c * b / 8 ∧
    readLE16 ((fmtChunkImage c b r).drop 20) = c * b / 8 ∧
    readLE16 ((fmtChunkImage c b r).drop 22) = b ∧
    readLE32 ((fmtChunkImage 1 16 44100).drop 16) = 88200 ∧
    readLE16 ((fmtChunkImage 1 16 44100).drop 20) = 2 := by
  refine ⟨⟨_, _, SaveToWav_created s fs hcreate, rfl, ?_⟩, rfl, rfl, ?_, ?_, ?_, ?_, ?_, ?_, ?_,
    by decide, by decide⟩
  · rw [List.drop_take, List.take_take, wavImage_eq_layout]
    have e : min 24 (fs.quota - 12) = 24 := by omega
    rw [e, hc, hb, hr, byteRate_eq c b r hrate, blockAlign_eq c b halign,
      toUShort_natCast c hcw, toUShort_natCast b hbw, toUInt_natCast r (by omega)]
    rfl
  · exact readLE32_le32 16 _ (by omega)
  · exact readLE16_le16 1 _ (by omega)
  · exact readLE16_le16 c _ hcw
  · exact readLE32_le32 r _ (by omega)
  · exact readLE32_le32 (r * c * b / 8) _ (by omega)
  · exact readLE16_le16 (c * b / 8) _ halign
  · exact readLE16_le16 b [] hbw

theorem SaveToWav_fmt_chunk_witness :
    (demoSound.channels = (1 : Nat) ∧ demoSound.bits = (16 : Nat) ∧ demoSound.rate = (44100 : Nat)
      ∧ 44100 * 1 * 16 < 2147483648 ∧ 1 * 16 / 8 < 65536) ∧
    ∃ fs1 file, (SaveToWav (some demoSound) demoFs).res = .ok fs1 ∧ fs1.file = some file ∧
      (file.drop 12).take 24 = fmtChunkImage 1 16 44100 :=
  ⟨⟨rfl, rfl, rfl, by decide, by decide⟩,
   (SaveToWav_fmt_chunk demoSound demoFs 1 16 44100 rfl rfl rfl (by decide) (by decide)
      (by decide) (by decide) (by decide) rfl (by decide)).1⟩

/-- C3, evaluated on a four byte buffer: the file written by `SaveToWav` starts
with `RIFF`, a size field and `WAVE`; 40 bytes follow the size field (the file
has 48 bytes) but the size field holds 36, the payload length plus 32. -/
theorem SaveToWav_riff_size_field_at_four_bytes :
    (SaveToWav (some demoSound) demoFs).res
      = .ok { demoFs with file := some demoFile, quota := 952 } ∧
    demoFile.take 4 = tag4 'R' 'I' 'F' 'F' ∧ (demoFile.drop 8).take 4 = tag4 'W' 'A' 'V' 'E' ∧
    demoFile.length = 48 ∧ (demoFile.drop 8).length = 4 + 36 ∧
    readLE32 (demoFile.drop 4) = 4 + 32 := by
  decide

/-- For every payload length that leaves room in the size field, the outer
size field written by `SaveToWav` is the payload length plus 32, while the
payload length plus 36 bytes follow it. -/
theorem wavImage_riff_size (s : Sound) (h : s.lenbytes + 32 < 4294967296) :
    readLE32 ((wavImage s).drop 4) = s.lenbytes + 32 ∧
    ((wavImage s).drop 8).length = (s.lock.ptr1.take s.lock.len1).length + 36 := by
  rw [wavImage_eq_layout]
  constructor
  · have d4 : ∀ riff ch rate brate align bits n (P : List Nat),
        (layout riff ch rate brate align bits n P).drop 4 = le32 riff ++
          (layout riff ch rate brate align bits n P).drop 8 := fun _ _ _ _ _ _ _ _ => rfl
    rw [d4, readLE32_le32 _ _ (toUInt_lt _)]
    have e : sizeofFmtChunk + sizeofRiffChunk + s.lenbytes = s.lenbytes + 32 := by
      simp only [sizeofFmtChunk, sizeofRiffChunk]; omega
    rw [e]
    exact toUInt_natCast _ h
  · rw [List.length_drop, layout_length]; omega

/-- C8, counterexample: on a device that accepts only 46 more bytes the save of
a four byte buffer returns exactly as a successful one does (same calls, a
normal return, stream closed), and leaves a 46 byte file whose 44 byte header
is complete and declares 4 payload bytes while only 2 follow. -/
theorem SaveToWav_short_write_unreported :
    (SaveToWav (some demoSound) shortFs).res
      = .ok { shortFs with file := some (demoFile.take 46), quota := 0 } ∧
    (SaveToWav (some demoSound) shortFs).calls = (SaveToWav (some demoSound) demoFs).calls ∧
    (demoFile.take 46).take 44 = demoFile.take 44 ∧
    readLE32 ((demoFile.take 46).drop 40) = 4 ∧ ((demoFile.take 46).drop 44).length = 2 := by
  decide

/-- C8, as the code has it: `SaveToWav` returns nothing and checks neither
`fopen` nor `fwrite`.  With a null sound it returns at once without a call.
When `record.wav` can be created it makes all four writes whatever the
earlier ones accepted, closes the stream once, and returns normally with the
file holding the bytes handed to `fwrite` cut to what the device accepted and
with no stream left open. -/
theorem SaveToWav_unchecked_writes (s : Sound) (fs : FileSys) (hcreate : fs.canCreate = true) :
    SaveToWav none fs = { calls := [], res := .ok fs } ∧
    (SaveToWav (some s) fs).calls =
      [.Sound_GetFormat, .Sound_GetDefaults, .Sound_GetLength .FMOD_TIMEUNIT_PCMBYTES,
       .fopen "record.wav" "wb",
       .fwrite (mkWavHeader s.lenbytes).bytes sizeofWavHeader 1,
       .fwrite (mkFmtChunk s.channels s.bits s.rate).bytes sizeofFmtChunk 1,
       .fwrite (mkDataChunk s.lenbytes).bytes sizeofDataChunk 1,
       .Sound_Lock 0 s.lenbytes,
       .fwrite s.lock.ptr1 s.lock.len1 1,
       .Sound_Unlock s.lock.len1 s.lock.len2,
       .fclose] ∧
    ∃ fs1, (SaveToWav (some s) fs).res = .ok fs1 ∧
      fs1.file = some ((wavImage s).take fs.quota) ∧ fs1.openStreams = fs.openStreams :=
  ⟨rfl, SaveToWav_calls s fs hcreate, _, SaveToWav_created s fs hcreate, rfl, rfl⟩

theorem SaveToWav_unchecked_writes_witness :
    shortFs.canCreate = true ∧
    ∃ fs1, (SaveToWav (some demoSound) shortFs).res = .ok fs1 ∧
      fs1.file = some ((wavImage demoSound).take shortFs.quota) ∧
      fs1.openStreams = shortFs.openStreams :=
  ⟨rfl, (SaveToWav_unchecked_writes demoSound shortFs rfl).2.2⟩

/-! ## The main loop -/

theorem chr_vals : chr 'r' = 114 ∧ chr 'R' = 82 ∧ chr 'p' = 112 ∧ chr 'P' = 80 ∧ chr 'l' = 108
    ∧ chr 'L' = 76 ∧ chr 's' = 115 ∧ chr 'S' = 83 ∧ chr 'w' = 119 ∧ chr 'W' = 87
    ∧ chr '1' = 49 ∧ chr '2' = 50 ∧ chr '3' = 51 ∧ chr '5' = 53 := by decide

/-- The status part of an iteration goes through exactly when `result` is
`FMOD_OK`. -/
theorem poll_res_ok (rd : Int) (s : LoopState) (t : Tick) (h : s.result = FMOD_OK) :
    ∃ st, (poll rd s t).res = .ok st := by
  cases hc : s.channel <;>
    simp [poll, pollChannel, bind, Proc.bind, pure, call, ERRCHECK, h, hc]

theorem poll_res_err (rd : Int) (s : LoopState) (t : Tick) (h : s.result ≠ FMOD_OK) :
    (poll rd s t).res = .halt (.exit (-1)) := by
  simp [poll, bind, Proc.bind, pure, call, ERRCHECK, h, halt]

/-- Every state with which the loop goes on to a next iteration has `result`
equal to `FMOD_OK`. -/
theorem iteration_result_ok (rd : Int) (s s1 : LoopState) (t : Tick)
    (h : (iteration rd s t).res = .ok s1) : s1.result = FMOD_OK := by
  unfold iteration at h
  simp only [bind, Proc.bind] at h
  cases hr : (readKey rd s t).res with
  | halt e => simp [hr] at h
  | ok s2 =>
    simp only [hr] at h
    by_cases hok : s2.result = FMOD_OK
    · obtain ⟨st, hst⟩ := poll_res_ok rd s2 t hok
      simp [hst, pure] at h
      rw [← h]; exact hok
    · simp [poll_res_err rd s2 t hok] at h

/-- C4, evaluated on the keys `r` then `p` in consecutive iterations with
looping off: the play command calls `FMOD_System_PlaySound` at once, with no
call between `_getch` and the play call other than setting the loop mode, and
when the devices later report play position 441 and record position 100 the
program prints both and goes on; nothing keeps the play position behind. -/
theorem play_while_recording_not_delayed :
    (iteration 0 idleState recordTick).res = .ok { idleState with key := 114 } ∧
    (iteration 0 { idleState with key := 114 } playTick).calls.take 4
      = [.kbhit, .getch, .Sound_SetMode .FMOD_LOOP_OFF, .System_PlaySound] ∧
    (iteration 0 { idleState with key := 114 } playTick).res
      = .ok { idleState with key := 112, channel := some 7 } ∧
    iteration 0 { idleState with key := 112, channel := some 7 } aheadTick
      = { calls := [.kbhit, .Sound_GetLength .FMOD_TIMEUNIT_PCM, .System_IsRecording 0,
                    .System_GetRecordPosition 0, .Channel_IsPlaying 7,
                    .Channel_GetPosition 7 .FMOD_TIMEUNIT_PCM,
                    printStatus { recording := 1, playing := 1, recordpos := 100, playpos := 441 }
                      false,
                    .System_Update, .Sleep 10],
          res := .ok { idleState with key := 112, channel := some 7 } } := by
  decide

/-- C5, counterexample: with nothing captured and capture inactive the play
command does not fail: it calls `FMOD_System_PlaySound`, stores the channel
handle, the status line shows `Playing`, and the loop goes on. -/
theorem play_from_idle_starts_playback :
    iteration 0 idleState idlePlayTick
      = { calls := [.kbhit, .getch, .Sound_SetMode .FMOD_LOOP_OFF, .System_PlaySound,
                    .Sound_GetLength .FMOD_TIMEUNIT_PCM, .System_IsRecording 0,
                    .System_GetRecordPosition 0, .Channel_IsPlaying 7,
                    .Channel_GetPosition 7 .FMOD_TIMEUNIT_PCM,
                    printStatus { recording := 0, playing := 1, recordpos := 0, playpos := 0 }
                      false,
                    .System_Update, .Sleep 10],
          res := .ok { idleState with key := 112, channel := some 7 } } := by
  decide

/-- C5, as the code has it: in every state at the top of the loop the play
command looks at neither the captured byte count nor the capture status; it
sets the loop mode from the flag and calls `FMOD_System_PlaySound`, and when
that call returns `FMOD_OK` the handle it hands back is stored in `channel`
and the loop goes on. -/
theorem play_command_unconditional (rd : Int) (s : LoopState) (t : Tick)
    (hk : s.key = chr 'p' ∨ s.key = chr 'P') (hres : s.result = FMOD_OK)
    (hplay : t.playSound = FMOD_OK) :
    handleKey rd s t
      = { calls := [.Sound_SetMode (if s.looping then .FMOD_LOOP_NORMAL else .FMOD_LOOP_OFF),
                    .System_PlaySound],
          res := .ok { s with result := FMOD_OK, channel := t.playChannel } } := by
  obtain ⟨h1, h2, h3, h4, -⟩ := chr_vals
  rcases hk with h | h <;> cases hl : s.looping <;>
    simp [handleKey, h, h1, h2, h3, h4, pure, bind, Proc.bind, call, ERRCHECK, hres, hplay, hl]

theorem play_command_unconditional_witness :
    handleKey 0 { idleState with key := 112 } idlePlayTick
      = { calls := [.Sound_SetMode .FMOD_LOOP_OFF, .System_PlaySound],
          res := .ok { idleState with key := 112, channel := some 7 } } :=
  play_command_unconditional 0 { idleState with key := 112 } idlePlayTick (Or.inl rfl) rfl rfl

/-- C6, counterexample: when `FMOD_System_RecordStart` reports an error the
main loop prints it and the process exits with code -1; the next tick is never
reached. -/
theorem record_error_exits_process :
    mainLoop 0 idleState [failedRecordTick, quietTick]
      = { calls := [.kbhit, .getch, .System_RecordStart 0 false,
                    .printf "FMOD error! (%d) %s\n"
                      [.result (.FMOD_ERR 1), .errorString (.FMOD_ERR 1)]],
          res := .halt (.exit (-1)) } := by
  decide

/-- C6, as the code has it: in every iteration at the top of which `result` is
`FMOD_OK`, when the device call made for a record or a play command returns a
result `r` other than `FMOD_OK`, `ERRCHECK` prints the error and calls
`exit(-1)`: the run ends there, whatever ticks would follow. -/
theorem command_error_exits (rd : Int) (s : LoopState) (t : Tick) (ticks : List Tick)
    (key : Int) (r : FMOD_RESULT) (hkb : t.kbhit = some key) (hres : s.result = FMOD_OK)
    (hcmd : ((key = chr 'r' ∨ key = chr 'R') ∧ t.recordStart = r) ∨
            ((key = chr 'p' ∨ key = chr 'P') ∧ t.playSound = r))
    (hr : r ≠ FMOD_OK) :
    (mainLoop rd s (t :: ticks)).res = .halt (.exit (-1)) ∧
    (mainLoop rd s (t :: ticks)).calls.getLast?
      = some (.printf "FMOD error! (%d) %s\n" [.result r, .errorString r]) := by
  obtain ⟨h1, h2, h3, h4, -⟩ := chr_vals
  rcases hcmd with ⟨hk, hrs⟩ | ⟨hk, hrs⟩
  · rcases hk with h | h <;>
      simp [mainLoop, iteration, readKey, handleKey, hkb, h, h1, h2, h3, h4, pure, bind,
        Proc.bind, call, ERRCHECK, hrs, hr, halt]
  · rcases hk with h | h <;> cases hl : s.looping <;>
      simp [mainLoop, iteration, readKey, handleKey, hkb, h, h1, h2, h3, h4, pure, bind,
        Proc.bind, call, ERRCHECK, hrs, hr, hres, hl, halt]

theorem command_error_exits_witness :
    (mainLoop 0 idleState [failedPlayTick, quietTick]).res = .halt (.exit (-1)) ∧
    (mainLoop 0 idleState [failedPlayTick, quietTick]).calls.getLast?
      = some (.printf "FMOD error! (%d) %s\n" [.result (.FMOD_ERR 2), .errorString (.FMOD_ERR 2)]) :=
  command_error_exits 0 idleState failedPlayTick [quietTick] 112 (.FMOD_ERR 2) rfl rfl
    (Or.inr ⟨Or.inl rfl, rfl⟩) (by decide)

/-- C7: in every state the stop command ends with the channel handle cleared
and the loop flag as it was, and a second stop (record-stop answering the
same) leaves the state the first one produced; applied to a state that is
already stopped (no channel handle, `result` `FMOD_OK`) with record-stop
reporting success, it makes the record-stop call only, leaves the state
unchanged, and the error checks of the rest of the iteration pass. -/
theorem stop_command_idempotent (rd : Int) (s : LoopState) (t : Tick)
    (hk : s.key = chr 's' ∨ s.key = chr 'S') :
    (∃ s1, (handleKey rd s t).res = .ok s1 ∧ s1.channel = none ∧ s1.looping = s.looping ∧
      ∀ t2 : Tick, t2.recordStop = t.recordStop →
        handleKey rd s1 t2 = { calls := [.System_RecordStop rd], res := .ok s1 }) ∧
    (s.channel = none → s.result = FMOD_OK → t.recordStop = FMOD_OK →
      handleKey rd s t = { calls := [.System_RecordStop rd], res := .ok s } ∧
      ∃ st, (poll rd s t).res = .ok st) := by
  obtain ⟨h1, h2, h3, h4, h5, h6, h7, h8, -⟩ := chr_vals
  constructor
  · refine ⟨{ s with result := t.recordStop, channel := none }, ?_, rfl, rfl, ?_⟩
    · rcases hk with h | h <;> cases hc : s.channel <;>
        simp [handleKey, h, h1, h2, h3, h4, h5, h6, h7, h8, pure, bind, Proc.bind, call, hc]
    · intro t2 ht2
      rcases hk with h | h <;>
        simp [handleKey, h, h1, h2, h3, h4, h5, h6, h7, h8, pure, bind, Proc.bind, call, ht2]
  · intro hc hres hstop
    refine ⟨?_, poll_res_ok rd s t hres⟩
    obtain ⟨key, result, channel, looping, fs⟩ := s
    simp only at hk hc hres hstop
    subst hc hres
    rcases hk with h | h <;>
      simp [handleKey, h, h1, h2, h3, h4, h5, h6, h7, h8, pure, bind, Proc.bind, call, hstop]

theorem stop_command_idempotent_witness :
    handleKey 0 { idleState with key := 115 } stopTick
      = { calls := [.System_RecordStop 0], res := .ok { idleState with key := 115 } } ∧
    ∃ st, (poll 0 { idleState with key := 115 } stopTick).res = .ok st :=
  (stop_command_idempotent 0 { idleState with key := 115 } stopTick (Or.inl rfl)).2 rfl rfl rfl

/-- C9: in every state the key `l` or `L` makes no call and changes nothing but
the looping flag, which it negates, so that a second toggle restores the
state.  Among the commands the flag is read by two only: the record command
passes it to `FMOD_System_RecordStart`, and the play command sets the sound
mode to loop-normal when it is set and to loop-off when it is not; for every
other key the calls made and the state produced are the same whatever the
flag holds. -/
theorem loop_toggle_frame (rd : Int) (s : LoopState) (t : Tick)
    (hk : s.key = chr 'l' ∨ s.key = chr 'L') :
    handleKey rd s t = { calls := [], res := .ok { s with looping := !s.looping } } ∧
    handleKey rd { s with looping := !s.looping } t = { calls := [], res := .ok s } ∧
    (∀ s2 : LoopState, s2.key = chr 'r' ∨ s2.key = chr 'R' →
      (handleKey rd s2 t).calls.head? = some (.System_RecordStart rd s2.looping)) ∧
    (∀ s2 : LoopState, s2.key = chr 'p' ∨ s2.key = chr 'P' →
      (handleKey rd s2 t).calls.head?
        = some (.Sound_SetMode (if s2.looping then .FMOD_LOOP_NORMAL else .FMOD_LOOP_OFF))) ∧
    (∀ (s2 : LoopState) (b : Bool),
      ¬ (s2.key = chr 'r' ∨ s2.key = chr 'R') → ¬ (s2.key = chr 'p' ∨ s2.key = chr 'P') →
      ¬ (s2.key = chr 'l' ∨ s2.key = chr 'L') →
      (handleKey rd { s2 with looping := b } t).calls = (handleKey rd s2 t).calls ∧
      (handleKey rd { s2 with looping := b } t).res
        = (handleKey rd s2 t).res.map (fun x => { x with looping := b })) := by
  obtain ⟨h1, h2, h3, h4, h5, h6, h7, h8, h9, h10, -⟩ := chr_vals
  refine ⟨?_, ?_, ?_, ?_, ?_⟩
  · rcases hk with h | h <;> simp [handleKey, h, h1, h2, h3, h4, h5, h6, pure]
  · obtain ⟨key, result, channel, looping, fs⟩ := s
    simp only at hk
    rcases hk with h | h <;> simp [handleKey, h, h1, h2, h3, h4, h5, h6, pure]
  · intro s2 hk2
    by_cases hok : t.recordStart = FMOD_OK <;>
      simp [handleKey, hk2, pure, bind, Proc.bind, call, ERRCHECK, hok, halt]
  · intro s2 hk2
    obtain ⟨hk2a, hk2b⟩ : ¬ (s2.key = chr 'r' ∨ s2.key = chr 'R') ∧
        (s2.key = chr 'p' ∨ s2.key = chr 'P') := by
      rcases hk2 with h | h <;> simp [h, h1, h2, h3, h4]
    cases hl : s2.looping <;> by_cases hok : s2.result = FMOD_OK <;>
      by_cases hok2 : t.playSound = FMOD_OK <;>
      simp [handleKey, hk2a, hk2b, pure, bind, Proc.bind, call, ERRCHECK, hok, hok2, hl, halt]
  · intro s2 b hr hp hl
    by_cases hs : s2.key = chr 's' ∨ s2.key = chr 'S'
    · cases hc : s2.channel <;>
        simp [handleKey, hr, hp, hl, hs, pure, bind, Proc.bind, call, hc, Res.map]
    · by_cases hw : s2.key = chr 'w' ∨ s2.key = chr 'W'
      · cases hsv : (SaveToWav (some t.sound) s2.fs).res <;>
          simp [handleKey, hr, hp, hl, hs, hw, pure, bind, Proc.bind, call, hsv, Res.map]
      · simp [handleKey, hr, hp, hl, hs, hw, pure, Res.map]

theorem loop_toggle_frame_witness :
    (handleKey 0 { idleState with key := 108 } quietTick
      = { calls := [], res := .ok { idleState with key := 108, looping := true } }) ∧
    (handleKey 0 { idleState with key := 115, looping := true } quietTick).calls
      = (handleKey 0 { idleState with key := 115 } quietTick).calls :=
  ⟨(loop_toggle_frame 0 { idleState with key := 108 } quietTick (Or.inl rfl)).1,
   ((loop_toggle_frame 0 { idleState with key := 108 } quietTick (Or.inl rfl)).2.2.2.2
      { idleState with key := 115 } true (by decide) (by decide) (by decide)).1⟩

/-! ## Start-up -/

theorem outputLoopCond_false (key : Int) : outputLoopCond key = false := by
  obtain ⟨-, -, -, -, -, -, -, -, -, -, h1, -, -, h5⟩ := chr_vals
  simp [outputLoopCond, h1, h5]
  omega

/-- C10: the continuation condition of the output selection loop is false for
every key, so the loop reads exactly one key whatever is typed; and when the
library was created with a recent enough version and that first key is none
of `1`, `2`, `3`, `main` returns 1 after that single `_getch`, without a call
of `FMOD_System_Init`. -/
theorem output_selection_reads_one_key (w : World) (key : Int) (keys : List Int)
    (hkeys : w.keys = key :: keys) (hcreate : w.systemCreate = FMOD_OK)
    (hgv : w.getVersion = FMOD_OK) (hver : ¬ w.version < w.FMOD_VERSION)
    (hkey : key ≠ chr '1' ∧ key ≠ chr '2' ∧ key ≠ chr '3') :
    (∀ k : Int, outputLoopCond k = false) ∧
    (∀ (k : Int) (rest : List Int),
      selectOutputKey (k :: rest) = { calls := [.getch], res := .ok (k, rest) }) ∧
    (main w).res = .halt (.ret 1) ∧
    (main w).calls.count .getch = 1 ∧
    (∀ n : Nat, Call.System_Init n ∉ (main w).calls) := by
  have hsel : ∀ (k : Int) (rest : List Int),
      selectOutputKey (k :: rest) = { calls := [.getch], res := .ok (k, rest) } := by
    intro k rest
    simp [selectOutputKey, outputLoopCond_false, bind, Proc.bind, pure, call]
  have hmain : main w =
      { calls := [.System_Create, .System_GetVersion,
          .printf (rule '-' 57) [],
          .printf "Select OUTPUT type\n" [],
          .printf (rule '-' 57) [],
          .printf "1 :  DirectSound\n" [],
          .printf "2 :  Windows Multimedia WaveOut\n" [],
          .printf "3 :  ASIO\n" [],
          .printf (rule '-' 57) [],
          .printf "Press a corresponding number or ESC to quit\n" [],
          .getch],
        res := .halt (.ret 1) } := by
    simp [main, hkeys, hsel, setOutput, hkey.1, hkey.2.1, hkey.2.2, hcreate, hgv, hver, bind,
      Proc.bind, pure, call, ERRCHECK, halt]
  refine ⟨outputLoopCond_false, hsel, ?_, ?_, ?_⟩
  · rw [hmain]
  · rw [hmain]; decide
  · intro n; rw [hmain]; simp

theorem output_selection_reads_one_key_witness :
    (main (demoWorld [52, 49, 49])).res = .halt (.ret 1) ∧
    (main (demoWorld [52, 49, 49])).calls.count .getch = 1 :=
  ⟨(output_selection_reads_one_key (demoWorld [52, 49, 49]) 52 [49, 49] rfl rfl rfl (by decide)
      (by decide)).2.2.1,
   (output_selection_reads_one_key (demoWorld [52, 49, 49]) 52 [49, 49] rfl rfl rfl (by decide)
      (by decide)).2.2.2.1⟩

/-- With the key `1` and every call succeeding, the same run does reach
`FMOD_System_Init`. -/
theorem main_reaches_init : Call.System_Init 32 ∈ (main (demoWorld [49, 49, 49])).calls := by
  decide

end Recording
